import Mathlib

/-!
Verification of the Voice Live session relay (`app/service.py`).

A shallow embedding of `VoiceLiveSessionManager`: the four session flags
become a `Session` record, each upstream server event becomes a constructor
of `VLEvent`, and the event handler `_handle_event`, the client barge-in
procedure `_handle_client_barge_in`, the client-to-upstream relay loop body
`_relay_client_to_voicelive`, the upstream-to-client loop body
`_relay_voicelive_to_client` and the `run` entry point become pure functions
that return the successor state together with the messages sent to the
client, the upstream calls issued, the log entries emitted and the
exception (if any) escaping the routine.

Naming follows the source: the `_response_api_done` attribute is the
flag the specification calls `response_finalized`.
-/

namespace VoiceLive

/-- The four response-tracking flags of `VoiceLiveSessionManager.__init__`
(`_active_response`, `_response_api_done`, `_conversation_started`,
`_audio_suppressed`). -/
structure Session where
  active_response : Bool
  response_api_done : Bool
  conversation_started : Bool
  audio_suppressed : Bool
deriving Repr, DecidableEq

/-- All flags initialize to false (`__init__`). -/
def Session.init : Session :=
  { active_response := false, response_api_done := false,
    conversation_started := false, audio_suppressed := false }

/-- Upstream server events, the closed set of `ServerEventType` variants
dispatched by `_handle_event`.  `responseAudioDelta` carries the decoded
PCM bytes of `event.delta` (the `isinstance` base64 branch is transport
encoding of the same payload). -/
inductive VLEvent where
  | sessionUpdated (sessionId : String)
  | inputTranscriptionCompleted (transcript : String)
  | inputTranscriptionFailed (errMsg : String)
  | responseTextDone (text : String)
  | responseAudioTranscriptDone (transcript : String)
  | speechStarted
  | speechStopped
  | responseCreated
  | responseAudioDelta (delta : List Nat)
  | responseAudioDone
  | responseDone
  | errorEvent (message : String)
  | conversationItemCreated (itemId : String)
  | unhandled
deriving Repr, DecidableEq

/-- JSON control messages the relay sends to the client (the
server-to-client text-frame vocabulary of the module docstring). -/
inductive CtrlMsg where
  | session_started (id : String)
  | user_transcript (text : String)
  | agent_transcript (text : String)
  | agent_text (text : String)
  | clear_playback
  | status (value : String)
  | error (message : String)
  | pong
deriving Repr, DecidableEq

/-- A frame sent toward the client WebSocket: a JSON text frame or a raw
binary audio frame (`_send_json` / `ws.send_bytes`). -/
inductive ClientOut where
  | jsonMsg (m : CtrlMsg)
  | audioBytes (b : List Nat)
deriving Repr, DecidableEq

/-- Outbound calls on the upstream Voice Live connection. -/
inductive UpstreamCall where
  | sessionUpdate
  | appendAudio (audio : String)
  | responseCreate
  | responseCancel
deriving Repr, DecidableEq

/-- A log entry, tagged with its level. -/
inductive LogEntry where
  | debug (m : String)
  | info (m : String)
  | warning (m : String)
  | error (m : String)
  | exception (m : String)
deriving Repr, DecidableEq

/-- Exceptions distinguished by the relay loops: client WebSocket
disconnect, task cancellation, and anything else. -/
inductive ExcKind where
  | wsDisconnect
  | cancelled
  | otherExc (m : String)
deriving Repr, DecidableEq

/-- Outcome of an `await self._connection.response.cancel()` call, the
effect the environment chooses for that call site. -/
inductive CancelResult where
  | ok
  | noActiveResponse
  | otherFailure (m : String)
deriving Repr, DecidableEq

/-- Result of one handler invocation: successor state, frames sent to the
client in order, upstream calls issued in order, log entries, and the
exception escaping the handler (`none` when it returns normally). -/
structure StepOut where
  state : Session
  sent : List ClientOut
  calls : List UpstreamCall
  logs : List LogEntry
  raised : Option ExcKind
deriving Repr, DecidableEq

/-- Python substring containment `needle in hay` on strings. -/
def containsSub (hay needle : String) : Bool :=
  (List.range (hay.toList.length + 1)).any fun i =>
    needle.toList.isPrefixOf (hay.toList.drop i)

/-- The standard base64 alphabet. -/
def base64Alphabet : String :=
  "ABCDEFGHIJKLMNOPQRSTUVWXYZabcdefghijklmnopqrstuvwxyz0123456789+/"

/-- Digit of the base64 alphabet. -/
def b64Digit (n : Nat) : Char :=
  base64Alphabet.toList.getD n '?'

/-- `base64.b64encode` on a byte list, as used on raw client PCM frames. -/
def base64Encode : List Nat → String
  | [] => ""
  | [a] =>
    let n := a % 256 * 65536
    String.mk [b64Digit (n / 262144 % 64), b64Digit (n / 4096 % 64)] ++ "=="
  | [a, b] =>
    let n := a % 256 * 65536 + b % 256 * 256
    String.mk [b64Digit (n / 262144 % 64), b64Digit (n / 4096 % 64),
      b64Digit (n / 64 % 64)] ++ "="
  | a :: b :: c :: rest =>
    let n := a % 256 * 65536 + b % 256 * 256 + c % 256
    String.mk [b64Digit (n / 262144 % 64), b64Digit (n / 4096 % 64),
      b64Digit (n / 64 % 64), b64Digit (n % 64)] ++ base64Encode rest

/-- Log entries of the `try/except` around `response.cancel()`: the two
barge-in sites swallow a failure whose text contains `no active response`
with a debug entry and log any other failure as a warning; neither
re-raises. -/
def cancelOutcomeLogs (okMsg : String) (cr : CancelResult) : List LogEntry :=
  match cr with
  | CancelResult.ok => [LogEntry.info okMsg]
  | CancelResult.noActiveResponse =>
      [LogEntry.debug "Cancel ignored - already completed"]
  | CancelResult.otherFailure m =>
      [LogEntry.warning ("Cancel failed: " ++ m)]

/-- `_handle_event`: route and process a single Voice Live server event.
`greet` is `settings.enable_proactive_greeting`; `cr` is the outcome the
environment gives a `response.cancel()` call issued by this step. -/
def handleEvent (greet : Bool) (cr : CancelResult) (s : Session)
    (e : VLEvent) : StepOut :=
  match e with
  | VLEvent.sessionUpdated sid =>
      let sent0 := [ClientOut.jsonMsg (CtrlMsg.session_started sid)]
      if greet && !s.conversation_started then
        { state := { s with conversation_started := true }, sent := sent0,
          calls := [UpstreamCall.responseCreate],
          logs := [LogEntry.info "Proactive greeting requested"],
          raised := none }
      else
        { state := s, sent := sent0, calls := [], logs := [], raised := none }
  | VLEvent.inputTranscriptionCompleted t =>
      { state := s,
        sent := if t ≠ "" then [ClientOut.jsonMsg (CtrlMsg.user_transcript t)]
                else [],
        calls := [], logs := [], raised := none }
  | VLEvent.inputTranscriptionFailed m =>
      { state := s, sent := [], calls := [],
        logs := [LogEntry.warning ("User transcription failed: " ++ m)],
        raised := none }
  | VLEvent.responseTextDone t =>
      { state := s, sent := [ClientOut.jsonMsg (CtrlMsg.agent_text t)],
        calls := [], logs := [], raised := none }
  | VLEvent.responseAudioTranscriptDone t =>
      { state := s, sent := [ClientOut.jsonMsg (CtrlMsg.agent_transcript t)],
        calls := [], logs := [], raised := none }
  | VLEvent.speechStarted =>
      let listening := ClientOut.jsonMsg (CtrlMsg.status "listening")
      if s.active_response && !s.response_api_done then
        { state := { s with audio_suppressed := true },
          sent := [listening, ClientOut.jsonMsg CtrlMsg.clear_playback],
          calls := [UpstreamCall.responseCancel],
          logs := cancelOutcomeLogs "Cancelled active response (barge-in)" cr,
          raised := none }
      else
        { state := s, sent := [listening], calls := [], logs := [],
          raised := none }
  | VLEvent.speechStopped =>
      { state := s, sent := [ClientOut.jsonMsg (CtrlMsg.status "processing")],
        calls := [], logs := [], raised := none }
  | VLEvent.responseCreated =>
      { state :=
          { s with
              active_response := true
              response_api_done := false
              audio_suppressed := false },
        sent := [ClientOut.jsonMsg (CtrlMsg.status "agent_speaking")],
        calls := [], logs := [], raised := none }
  | VLEvent.responseAudioDelta d =>
      if s.audio_suppressed then
        { state := s, sent := [], calls := [], logs := [], raised := none }
      else
        { state := s,
          sent := if d ≠ [] then [ClientOut.audioBytes d] else [],
          calls := [], logs := [], raised := none }
  | VLEvent.responseAudioDone =>
      { state := s, sent := [ClientOut.jsonMsg (CtrlMsg.status "ready")],
        calls := [], logs := [LogEntry.info "Agent audio complete"],
        raised := none }
  | VLEvent.responseDone =>
      { state := { s with active_response := false, response_api_done := true },
        sent := [], calls := [], logs := [], raised := none }
  | VLEvent.errorEvent m =>
      if containsSub m.toLower "no active response" then
        { state := s, sent := [], calls := [],
          logs := [LogEntry.debug "Benign cancellation error"],
          raised := none }
      else
        { state := s, sent := [ClientOut.jsonMsg (CtrlMsg.error m)],
          calls := [],
          logs := [LogEntry.error ("VoiceLive error: " ++ m)],
          raised := none }
  | VLEvent.conversationItemCreated _ =>
      { state := s, sent := [], calls := [], logs := [], raised := none }
  | VLEvent.unhandled =>
      { state := s, sent := [], calls := [], logs := [], raised := none }

/-- `_handle_client_barge_in`: suppress audio unconditionally, then cancel
the active response when `active_response and not response_api_done`. -/
def handleClientBargeIn (cr : CancelResult) (s : Session) : StepOut :=
  let s1 := { s with audio_suppressed := true }
  let baseLogs := [LogEntry.info "Client barge-in received - audio suppressed"]
  if s.active_response && !s.response_api_done then
    { state := s1, sent := [], calls := [UpstreamCall.responseCancel],
      logs := baseLogs ++
        cancelOutcomeLogs "Cancelled active response (client barge-in)" cr,
      raised := none }
  else
    { state := s1, sent := [], calls := [], logs := baseLogs, raised := none }

/-- A state-mutating step of the session: one upstream event handled by
`_handle_event`, or one client `barge_in` message handled by
`_handle_client_barge_in` (the only two routines touching the flags). -/
inductive Step where
  | upstream (e : VLEvent)
  | clientBargeIn
deriving Repr, DecidableEq

/-- Apply one step to the session state. -/
def applyStep (greet : Bool) (cr : CancelResult) (s : Session)
    (st : Step) : StepOut :=
  match st with
  | Step.upstream e => handleEvent greet cr s e
  | Step.clientBargeIn => handleClientBargeIn cr s

/-- State after handling one upstream event (cancel outcomes do not touch
the flags, so the state projection fixes `cr`). -/
def stepSession (greet : Bool) (s : Session) (e : VLEvent) : Session :=
  (handleEvent greet CancelResult.ok s e).state

/-- State after handling a sequence of upstream events from the initial
state. -/
def runEvents (greet : Bool) (evs : List VLEvent) : Session :=
  evs.foldl (stepSession greet) Session.init

/-- State after a sequence of mutating steps (upstream events and client
barge-ins) from the initial state. -/
def runSteps (greet : Bool) (l : List Step) : Session :=
  l.foldl (fun s st => (applyStep greet CancelResult.ok s st).state)
    Session.init

/-- A client message after `json.loads` succeeded: `msg.get` on the
`type` and `audio` keys, with `""` defaults. -/
structure ClientMsg where
  type : String
  audio : String
deriving Repr, DecidableEq

/-- One unit received from the client WebSocket by
`_relay_client_to_voicelive`: a `WebSocketDisconnect` raised by
`receive()`, a `websocket.disconnect` message, a binary frame with its
byte payload, or a text frame carrying the outcome of `json.loads`
(`none` when the payload is not valid JSON). -/
inductive ClientFrame where
  | disconnectExc
  | disconnectMsg
  | binary (b : List Nat)
  | text (parsed : Option ClientMsg)
deriving Repr, DecidableEq

/-- What one iteration of a relay loop does next: fall through to the next
iteration, or leave the loop. -/
inductive LoopAction where
  | cont
  | stop
deriving Repr, DecidableEq

/-- Result of one iteration of the client-to-upstream loop body. -/
structure ClientStepOut where
  state : Session
  calls : List UpstreamCall
  sent : List ClientOut
  logs : List LogEntry
  action : LoopAction
deriving Repr, DecidableEq

/-- One iteration of `_relay_client_to_voicelive`: receive a frame and
dispatch on it. -/
def relayClientStep (cr : CancelResult) (s : Session)
    (f : ClientFrame) : ClientStepOut :=
  match f with
  | ClientFrame.disconnectExc =>
      { state := s, calls := [], sent := [],
        logs := [LogEntry.info "Client disconnected during audio relay"],
        action := LoopAction.stop }
  | ClientFrame.disconnectMsg =>
      { state := s, calls := [], sent := [], logs := [],
        action := LoopAction.stop }
  | ClientFrame.binary b =>
      if b ≠ [] then
        { state := s, calls := [UpstreamCall.appendAudio (base64Encode b)],
          sent := [], logs := [], action := LoopAction.cont }
      else
        { state := s, calls := [], sent := [], logs := [],
          action := LoopAction.cont }
  | ClientFrame.text parsed =>
      match parsed with
      | none =>
          { state := s, calls := [], sent := [],
            logs := [LogEntry.warning "Invalid JSON from client"],
            action := LoopAction.cont }
      | some m =>
          if m.type = "audio" then
            if m.audio ≠ "" then
              { state := s, calls := [UpstreamCall.appendAudio m.audio],
                sent := [], logs := [], action := LoopAction.cont }
            else
              { state := s, calls := [], sent := [], logs := [],
                action := LoopAction.cont }
          else if m.type = "barge_in" then
            let o := handleClientBargeIn cr s
            { state := o.state, calls := o.calls, sent := o.sent,
              logs := o.logs, action := LoopAction.cont }
          else if m.type = "ping" then
            { state := s, calls := [],
              sent := [ClientOut.jsonMsg CtrlMsg.pong], logs := [],
              action := LoopAction.cont }
          else
            { state := s, calls := [], sent := [], logs := [],
              action := LoopAction.cont }

/-- What one iteration of `_relay_voicelive_to_client` does after
`_handle_event` on the current event finished with the given exception
(`none` when it returned normally). -/
inductive EventLoopOutcome where
  | nextEvent
  | propagate (e : ExcKind)
deriving Repr, DecidableEq

/-- Result of one iteration of the upstream-to-client loop body. -/
structure EventLoopStep where
  outcome : EventLoopOutcome
  logs : List LogEntry
deriving Repr, DecidableEq

/-- The `try/except` of `_relay_voicelive_to_client` around
`_handle_event`: `CancelledError` and `WebSocketDisconnect` re-raise,
every other exception is logged and the loop reads the next event. -/
def relayVoiceliveStep (res : Option ExcKind) : EventLoopStep :=
  match res with
  | none => { outcome := EventLoopOutcome.nextEvent, logs := [] }
  | some ExcKind.cancelled =>
      { outcome := EventLoopOutcome.propagate ExcKind.cancelled, logs := [] }
  | some ExcKind.wsDisconnect =>
      { outcome := EventLoopOutcome.propagate ExcKind.wsDisconnect, logs := [] }
  | some (ExcKind.otherExc _) =>
      { outcome := EventLoopOutcome.nextEvent,
        logs := [LogEntry.exception "Error handling event"] }

/-- Externally visible actions of the `run` entry point, in program
order. -/
inductive RunAction where
  | connect
  | configure
  | startLoops
  | sendErrorMsg (m : String)
deriving Repr, DecidableEq

/-- Actions of the `except` clauses of `run`: a `WebSocketDisconnect` is
logged only; any other `Exception` sends a best-effort error message to
the client; `CancelledError` is not an `Exception` and escapes. -/
def runExcActions (e : ExcKind) : List RunAction :=
  match e with
  | ExcKind.wsDisconnect => []
  | ExcKind.cancelled => []
  | ExcKind.otherExc _ => [RunAction.sendErrorMsg "Internal session error"]

/-- `run`: connect, configure the session once, then start the two relay
loops; the first raising stage aborts the rest of the `try` body and falls
to the `except` clauses.  `cRes`, `gRes` and `lRes` are the outcomes the
environment gives the connect stage, `_configure_session`, and
`_run_relay_loops` (`none` for success). -/
def runTrace (cRes gRes lRes : Option ExcKind) : List RunAction :=
  match cRes with
  | some e => [RunAction.connect] ++ runExcActions e
  | none =>
      match gRes with
      | some e => [RunAction.connect, RunAction.configure] ++ runExcActions e
      | none =>
          match lRes with
          | some e =>
              [RunAction.connect, RunAction.configure, RunAction.startLoops]
                ++ runExcActions e
          | none =>
              [RunAction.connect, RunAction.configure, RunAction.startLoops]

/-- A sample suppressed state: an active response being torn down after a
barge-in. -/
def suppressedSample : Session :=
  { active_response := true, response_api_done := false,
    conversation_started := true, audio_suppressed := true }

/-!
Theorems.
-/

/-- C3: a response audio delta handled while `audio_suppressed` is true
sends nothing to the client (and changes nothing else), and from a
suppressed state the only step — upstream event or client barge-in —
after which `audio_suppressed` is false is the `response created`
event. -/
theorem suppressed_audio_dropped (greet : Bool) (cr : CancelResult)
    (s : Session) (d : List Nat) (st : Step)
    (h : s.audio_suppressed = true) :
    handleEvent greet cr s (VLEvent.responseAudioDelta d) =
      { state := s, sent := [], calls := [], logs := [], raised := none } ∧
    (((applyStep greet cr s st).state.audio_suppressed = false) ↔
      st = Step.upstream VLEvent.responseCreated) := by
  constructor
  · simp [handleEvent, h]
  · cases st with
    | clientBargeIn =>
        simp only [applyStep, handleClientBargeIn]
        split <;> simp
    | upstream e =>
        cases e <;>
          simp only [applyStep, handleEvent] <;>
          first
            | (split <;> simp [h])
            | simp [h]

/-- Witness for `suppressed_audio_dropped` at a concrete suppressed
state, a concrete delta and the `response created` step. -/
theorem suppressed_audio_dropped_witness :
    handleEvent true CancelResult.ok suppressedSample
        (VLEvent.responseAudioDelta [1, 2]) =
      { state := suppressedSample,
        sent := [], calls := [], logs := [], raised := none } ∧
    (((applyStep true CancelResult.ok suppressedSample
        (Step.upstream VLEvent.responseCreated)).state.audio_suppressed
          = false) ↔
      Step.upstream VLEvent.responseCreated
        = Step.upstream VLEvent.responseCreated) :=
  suppressed_audio_dropped true CancelResult.ok suppressedSample [1, 2]
    (Step.upstream VLEvent.responseCreated) rfl

/-- C4: a client `barge_in` message sets `audio_suppressed`
unconditionally, issues the single cancellation call exactly when
`active_response and not response_api_done` held beforehand, leaves the
other three flags unchanged, sends nothing to the client (neither
`clear_playback` nor `status`), and lets no cancellation failure
escape — a `no active response` failure included. -/
theorem bargeIn_effect (cr : CancelResult) (s : Session) :
    (handleClientBargeIn cr s).state.audio_suppressed = true ∧
    (handleClientBargeIn cr s).state.active_response = s.active_response ∧
    (handleClientBargeIn cr s).state.response_api_done
      = s.response_api_done ∧
    (handleClientBargeIn cr s).state.conversation_started
      = s.conversation_started ∧
    (handleClientBargeIn cr s).calls =
      (if s.active_response && !s.response_api_done
       then [UpstreamCall.responseCancel] else []) ∧
    (handleClientBargeIn cr s).sent = [] ∧
    (handleClientBargeIn cr s).raised = none := by
  simp only [handleClientBargeIn]
  split <;> simp_all

/-- C5: a speech-started event always sends `status listening` first;
exactly when `active_response and not response_api_done` it also sets
`audio_suppressed`, sends `clear_playback` and issues one cancellation
call whose failure is swallowed (`no active response` at debug level,
anything else as a warning, never re-raised); otherwise the state is
untouched and nothing further is sent. -/
theorem speechStarted_effect (greet : Bool) (cr : CancelResult)
    (s : Session) :
    handleEvent greet cr s VLEvent.speechStarted =
      (if s.active_response && !s.response_api_done then
        { state := { s with audio_suppressed := true },
          sent := [ClientOut.jsonMsg (CtrlMsg.status "listening"),
                   ClientOut.jsonMsg CtrlMsg.clear_playback],
          calls := [UpstreamCall.responseCancel],
          logs := cancelOutcomeLogs
            "Cancelled active response (barge-in)" cr,
          raised := none }
       else
        { state := s,
          sent := [ClientOut.jsonMsg (CtrlMsg.status "listening")],
          calls := [], logs := [], raised := none }) := by
  simp only [handleEvent]

/-- C6: a client text frame whose payload is not valid JSON is logged and
discarded: no upstream call, nothing sent to the client, state unchanged,
and the loop continues with the next frame instead of terminating. -/
theorem malformed_json_discarded (cr : CancelResult) (s : Session) :
    relayClientStep cr s (ClientFrame.text none) =
      { state := s, calls := [], sent := [],
        logs := [LogEntry.warning "Invalid JSON from client"],
        action := LoopAction.cont } := rfl

/-- C7: when the configuration stage raises, `run` performs connect and
configure once, then only the best-effort error message — the relay
loops never start and configuration is not retried; on success the trace
is connect, configure once, then the loops. -/
theorem configure_failure_fatal (m : String) :
    runTrace none (some (ExcKind.otherExc m)) none =
      [RunAction.connect, RunAction.configure,
       RunAction.sendErrorMsg "Internal session error"] ∧
    runTrace none none none =
      [RunAction.connect, RunAction.configure, RunAction.startLoops] :=
  ⟨rfl, rfl⟩

/-- C8: an exception from handling one upstream event that is neither a
cancellation nor a client disconnect is caught and logged and the loop
reads the next event; cancellation and disconnect signals propagate out
of the loop. -/
theorem event_exception_contained (m : String) :
    relayVoiceliveStep (some (ExcKind.otherExc m)) =
      { outcome := EventLoopOutcome.nextEvent,
        logs := [LogEntry.exception "Error handling event"] } ∧
    relayVoiceliveStep (some ExcKind.cancelled) =
      { outcome := EventLoopOutcome.propagate ExcKind.cancelled,
        logs := [] } ∧
    relayVoiceliveStep (some ExcKind.wsDisconnect) =
      { outcome := EventLoopOutcome.propagate ExcKind.wsDisconnect,
        logs := [] } ∧
    relayVoiceliveStep none =
      { outcome := EventLoopOutcome.nextEvent, logs := [] } :=
  ⟨rfl, rfl, rfl, rfl⟩

/-- C9: an upstream error event whose message contains
`no active response` case-insensitively is swallowed, any other message
is forwarded as an `error` control message; in both cases no session
flag changes and no upstream call is made. -/
theorem errorEvent_effect (greet : Bool) (cr : CancelResult) (s : Session)
    (m : String) :
    handleEvent greet cr s (VLEvent.errorEvent m) =
      (if containsSub m.toLower "no active response" then
        { state := s, sent := [], calls := [],
          logs := [LogEntry.debug "Benign cancellation error"],
          raised := none }
       else
        { state := s, sent := [ClientOut.jsonMsg (CtrlMsg.error m)],
          calls := [],
          logs := [LogEntry.error ("VoiceLive error: " ++ m)],
          raised := none }) := by
  simp only [handleEvent]

/-- C10: an empty client audio unit — an empty binary frame, or an
`audio` text message with an empty payload — produces no upstream
audio-append call and silently continues the loop, while non-empty units
of either kind are forwarded as one append call. -/
theorem empty_audio_not_forwarded (cr : CancelResult) (s : Session)
    (b : List Nat) (a : String) (hb : b ≠ []) (ha : a ≠ "") :
    relayClientStep cr s (ClientFrame.binary []) =
      { state := s, calls := [], sent := [], logs := [],
        action := LoopAction.cont } ∧
    relayClientStep cr s
        (ClientFrame.text (some { type := "audio", audio := "" })) =
      { state := s, calls := [], sent := [], logs := [],
        action := LoopAction.cont } ∧
    (relayClientStep cr s (ClientFrame.binary b)).calls =
      [UpstreamCall.appendAudio (base64Encode b)] ∧
    (relayClientStep cr s
        (ClientFrame.text (some { type := "audio", audio := a }))).calls =
      [UpstreamCall.appendAudio a] := by
  refine ⟨rfl, by simp [relayClientStep], ?_, ?_⟩ <;>
    simp [relayClientStep, hb, ha]

/-- Witness for `empty_audio_not_forwarded` with a one-byte binary frame
and a one-group base64 payload. -/
theorem empty_audio_not_forwarded_witness :
    relayClientStep CancelResult.ok Session.init (ClientFrame.binary []) =
      { state := Session.init, calls := [], sent := [], logs := [],
        action := LoopAction.cont } ∧
    relayClientStep CancelResult.ok Session.init
        (ClientFrame.text (some { type := "audio", audio := "" })) =
      { state := Session.init, calls := [], sent := [], logs := [],
        action := LoopAction.cont } ∧
    (relayClientStep CancelResult.ok Session.init
        (ClientFrame.binary [1])).calls =
      [UpstreamCall.appendAudio (base64Encode [1])] ∧
    (relayClientStep CancelResult.ok Session.init
        (ClientFrame.text (some { type := "audio", audio := "AQ==" }))).calls
      = [UpstreamCall.appendAudio "AQ=="] :=
  empty_audio_not_forwarded CancelResult.ok Session.init [1] "AQ=="
    (by decide) (by decide)

/-- C1 as stated is false on the code: from the initial state (which
satisfies the implication), the client barge-in procedure yields a state
with `active_response = false` and `audio_suppressed = true`, so the
mutation does not preserve the implication. -/
theorem bargeIn_breaks_suppression_invariant :
    ¬ (((applyStep true CancelResult.ok Session.init
          Step.clientBargeIn).state.active_response = false) →
       ((applyStep true CancelResult.ok Session.init
          Step.clientBargeIn).state.audio_suppressed = false)) := by
  decide

/-- Any single mutating step preserves the implication from
`active_response` to the negation of `response_api_done`: the only step
setting `active_response` also clears `response_api_done`, and the only
step setting `response_api_done` also clears `active_response`. -/
theorem applyStep_preserves_active_imp (greet : Bool) (cr : CancelResult)
    (s : Session) (st : Step)
    (h : s.active_response = true → s.response_api_done = false) :
    (applyStep greet cr s st).state.active_response = true →
      (applyStep greet cr s st).state.response_api_done = false := by
  cases st with
  | clientBargeIn =>
      simp only [applyStep, handleClientBargeIn]
      split <;> simpa using h
  | upstream e =>
      cases e <;> simp only [applyStep, handleEvent] <;> (try split) <;>
        simp_all

/-- The implication from `active_response` to the negation of
`response_api_done` is inductive along any step sequence. -/
theorem runSteps_active_imp_aux (greet : Bool) (l : List Step) :
    ∀ s : Session,
      (s.active_response = true → s.response_api_done = false) →
      ((l.foldl (fun s st =>
          (applyStep greet CancelResult.ok s st).state) s).active_response
            = true →
        (l.foldl (fun s st =>
          (applyStep greet CancelResult.ok s st).state) s).response_api_done
            = false) := by
  induction l with
  | nil => exact fun s h => h
  | cons st rest ih =>
      intro s h
      simp only [List.foldl_cons]
      exact ih _ (applyStep_preserves_active_imp greet CancelResult.ok s st h)

/-- C1 amended: in every state reachable from the initial state through
the event handler and the client barge-in procedure, `active_response`
implies that `response_api_done` (the flag the specification calls
`response_finalized`) is false.  The implication claimed between
`active_response` and `audio_suppressed` is refuted by
`bargeIn_breaks_suppression_invariant`. -/
theorem active_implies_not_finalized (greet : Bool) (l : List Step)
    (h : (runSteps greet l).active_response = true) :
    (runSteps greet l).response_api_done = false := by
  exact runSteps_active_imp_aux greet l Session.init (fun _ => rfl) h

/-- Witness for `active_implies_not_finalized` after a single
response-created event. -/
theorem active_implies_not_finalized_witness :
    (runSteps true [Step.upstream VLEvent.responseCreated]).active_response
      = true ∧
    (runSteps true [Step.upstream VLEvent.responseCreated]).response_api_done
      = false :=
  ⟨by decide,
   active_implies_not_finalized true [Step.upstream VLEvent.responseCreated]
     (by decide)⟩

/-- The response-created event makes `active_response` true. -/
theorem active_stepSession_created (greet : Bool) (s : Session) :
    (stepSession greet s VLEvent.responseCreated).active_response
      = true := rfl

/-- The response-done event makes `active_response` false. -/
theorem active_stepSession_done (greet : Bool) (s : Session) :
    (stepSession greet s VLEvent.responseDone).active_response
      = false := rfl

/-- Every event other than response-created and response-done leaves
`active_response` unchanged. -/
theorem active_stepSession_neutral (greet : Bool) (s : Session)
    (e : VLEvent) (h1 : e ≠ VLEvent.responseCreated)
    (h2 : e ≠ VLEvent.responseDone) :
    (stepSession greet s e).active_response = s.active_response := by
  cases e <;> simp only [stepSession, handleEvent] <;>
    first
      | rfl
      | (split <;> rfl)
      | exact absurd rfl h1
      | exact absurd rfl h2

/-- C2: after processing any upstream event sequence from the initial
state, `active_response` is true iff the sequence contains a
response-created event at a position strictly later than every
response-done event. -/
theorem active_iff_created_after_done (greet : Bool) (evs : List VLEvent) :
    (runEvents greet evs).active_response = true ↔
      ∃ i : Nat, evs[i]? = some VLEvent.responseCreated ∧
        ∀ j : Nat, evs[j]? = some VLEvent.responseDone → j < i := by
  induction evs using List.reverseRecOn with
  | nil =>
      refine iff_of_false ?_ ?_
      · intro h
        simp [runEvents, Session.init] at h
      · rintro ⟨i, hi, -⟩
        simp at hi
  | append_singleton l e ih =>
      have hrun : runEvents greet (l ++ [e])
          = stepSession greet (runEvents greet l) e := by
        simp [runEvents, List.foldl_append]
      by_cases hc : e = VLEvent.responseCreated
      · subst hc
        rw [hrun, active_stepSession_created]
        refine iff_of_true rfl ?_
        refine ⟨l.length, ?_, ?_⟩
        · exact List.getElem?_concat_length l _
        · intro j hj
          rcases List.getElem?_eq_some_iff.mp hj with ⟨hlt, hget⟩
          have hlen : j < l.length + 1 := by simpa using hlt
          rcases Nat.lt_or_ge j l.length with hjl | hjl
          · exact hjl
          · exfalso
            have hj' : j = l.length := by omega
            subst hj'
            rw [List.getElem?_concat_length] at hj
            simp at hj
      · by_cases hd : e = VLEvent.responseDone
        · subst hd
          rw [hrun, active_stepSession_done]
          refine iff_of_false (by simp) ?_
          rintro ⟨i, hi, hall⟩
          have hdone : (l ++ [VLEvent.responseDone])[l.length]?
              = some VLEvent.responseDone :=
            List.getElem?_concat_length _ _
          have hlt := hall l.length hdone
          rcases List.getElem?_eq_some_iff.mp hi with ⟨hbound, -⟩
          have : i < l.length + 1 := by simpa using hbound
          omega
        · rw [hrun, active_stepSession_neutral greet _ e hc hd, ih]
          constructor
          · rintro ⟨i, hi, hall⟩
            refine ⟨i, ?_, ?_⟩
            · have hb : i < l.length := (List.getElem?_eq_some_iff.mp hi).1
              rw [List.getElem?_append_left hb]
              exact hi
            · intro j hj
              rcases Nat.lt_or_ge j l.length with hjl | hjl
              · apply hall
                rwa [List.getElem?_append_left hjl] at hj
              · exfalso
                rw [List.getElem?_append_right hjl] at hj
                have hk : j - l.length < 1 := by
                  simpa using (List.getElem?_eq_some_iff.mp hj).1
                have hk0 : j - l.length = 0 := by omega
                rw [hk0] at hj
                simp at hj
                exact hd hj
          · rintro ⟨i, hi, hall⟩
            rcases List.getElem?_eq_some_iff.mp hi with ⟨hb, -⟩
            have hb' : i < l.length + 1 := by simpa using hb
            have hil : i < l.length := by
              rcases Nat.lt_or_ge i l.length with hh | hh
              · exact hh
              · exfalso
                have hi0 : i = l.length := by omega
                subst hi0
                rw [List.getElem?_concat_length] at hi
                simp at hi
                exact hc hi
            refine ⟨i, ?_, ?_⟩
            · rwa [List.getElem?_append_left hil] at hi
            · intro j hj
              apply hall
              have hjl : j < l.length := (List.getElem?_eq_some_iff.mp hj).1
              rw [List.getElem?_append_left hjl]
              exact hj

end VoiceLive
